import Mathlib

/-!
Verification of the tool-orchestration core of the RAG chatbot backend
(`backend/ai_generator.py`): the bounded multi-round tool loop in
`AIGenerator.generate_response` / `AIGenerator._execute_tool_loop`, the
classification-based retry boundary `AIGenerator._make_api_call_with_retry`,
and the tool-registry dispatch contract.

The Python code is shallowly embedded: the language-model service is a
parameter `model : Nat → ModelResponse` giving the response to the i-th
successful API call of a run (calls happen in a fixed sequential order, so
indexing by call ordinal covers every possible model behaviour), and a run
is summarised by the full list of request parameters sent, the ordered
trace of tool executions, and the returned value.  `response.content[0].text`
is embedded as `firstText`, returning `none` when the attribute access is
undefined (empty content, or a leading tool-use block which carries no
text attribute).
-/

/-- A content block of a model response: a text block, or a tool-use block
carrying an id, a tool name and keyword-argument input
(`content_block.type`, `.id`, `.name`, `.input` in the Python code). -/
inductive ContentBlock where
  | text (s : String)
  | tool_use (id : String) (name : String) (input : List (String × String))
deriving Repr, DecidableEq

/-- A model response: `stop_reason` and the ordered list of content blocks. -/
structure ModelResponse where
  stop_reason : String
  content : List ContentBlock
deriving Repr, DecidableEq

/-- A tool result dict `{"type": "tool_result", "tool_use_id": ..., "content": ...}`
as built in `_execute_tool_loop`. -/
structure ToolResult where
  tool_use_id : String
  content : String
deriving Repr, DecidableEq

/-- The content of a conversation message: a plain string (the user query),
assistant content blocks, or a list of tool results. -/
inductive MessageContent where
  | str (s : String)
  | blocks (bs : List ContentBlock)
  | results (rs : List ToolResult)
deriving Repr, DecidableEq

/-- A role-tagged conversation message. -/
structure Message where
  role : String
  content : MessageContent
deriving Repr, DecidableEq

/-- The request parameters of one model call that the claims observe:
the messages list, the system string, and the tool definitions
(`none` when the `tools` key is absent from the request).  Tool
definitions are tracked by name. -/
structure ApiParams where
  messages : List Message
  system : String
  tools : Option (List String)
deriving Repr, DecidableEq

/-- Outcome of one `tool_manager.execute_tool` invocation: a returned string,
or an exception whose `str(e)` is `msg`. -/
inductive ToolOutcome where
  | ok (s : String)
  | exn (msg : String)
deriving Repr, DecidableEq

/-- The tool manager as seen by `_execute_tool_loop`: its `execute_tool`
method, which may raise. -/
structure ToolManagerModel where
  execute_tool : String → List (String × String) → ToolOutcome

/-- Summary of one `generate_response` run: the request parameters of every
model call in order, the `(name, input)` trace of every `execute_tool`
invocation in order, the returned value (`none` when the Python return
expression `response.content[0].text` is undefined), and whether the run
aborted with the `KeyError` that `base_params["tools"]` raises when
`generate_response` was called without a truthy `tools` argument (no
tools key in `base_params`) yet the loop tries to build the next-round
request.  When `key_error` is true, `requests` and `execs` are the calls
and executions performed before the raise and `ret` is `none`. -/
structure RunResult where
  requests : List ApiParams
  execs : List (String × List (String × String))
  ret : Option String
  key_error : Bool
deriving Repr, DecidableEq

/-- `MAX_TOOL_ROUNDS` of `AIGenerator` (ai_generator.py line 9). -/
def MAX_TOOL_ROUNDS : Nat := 2

/-- The static `SYSTEM_PROMPT` of `AIGenerator` (lines 12-48), verbatim. -/
def SYSTEM_PROMPT : String :=
  " You are an AI assistant specialized in course materials and educational content with access to comprehensive tools for course information.\n\nTool Usage:\n- **search_course_content**: Use for questions about specific course content or detailed educational materials\n- **get_course_outline**: Use for questions about course structure, curriculum, lesson lists, or course overview\n- **Multi-round search capability**: You can make UP TO 2 SEARCHES per query\n  - Use multiple searches for complex queries requiring information from different sources\n  - Example multi-search scenarios:\n    * Comparing topics across different courses\n    * Multi-part questions (e.g., \"What is X and what is Y?\")\n    * Finding courses that discuss topics mentioned in other courses\n  - First search: Explore one aspect or gather initial information\n  - Second search (optional): Explore another aspect, refine results, or search different course/lesson\n  - Use different search parameters (different course_name, lesson_number, or query terms)\n- **Search efficiency**:\n  - Do NOT repeat the same search twice\n  - Do NOT search if first result already answers the question completely\n  - After gathering all needed information, provide final synthesized answer\n- Synthesize tool results into accurate, fact-based responses\n- If tool yields no results, state this clearly without offering alternatives\n\nResponse Protocol:\n- **General knowledge questions**: Answer using existing knowledge without using tools\n- **Course-specific questions**: Use appropriate tool first, then answer\n- **Course outline questions**: Use get_course_outline to provide course title, course link, and complete lesson list with lesson numbers and titles\n- **No meta-commentary**:\n - Provide direct answers only — no reasoning process, tool usage explanations, or question-type analysis\n - Do not mention \"based on the search results\" or \"based on the tool results\"\n\n\nAll responses must be:\n1. **Brief, Concise and focused** - Get to the point quickly\n2. **Educational** - Maintain instructional value\n3. **Clear** - Use accessible language\n4. **Example-supported** - Include relevant examples when they aid understanding\nProvide only the direct answer to what was asked.\n"

/-- Whether a content block is a tool-use block (`content_block.type == "tool_use"`). -/
def isToolUse : ContentBlock → Bool
  | .tool_use _ _ _ => true
  | .text _ => false

/-- The tool-use blocks of a response content, in order: the tool-call
requests of a round. -/
def toolUses (blocks : List ContentBlock) : List ContentBlock :=
  blocks.filter isToolUse

/-- The id of a tool-use block (empty for a text block, which has no id). -/
def blockId : ContentBlock → String
  | .tool_use i _ _ => i
  | .text _ => ""

/-- `response.content[0].text`: `some s` when the first content block is a
text block with text `s`, `none` when the attribute access is undefined. -/
def firstText : List ContentBlock → Option String
  | [] => none
  | .text s :: _ => some s
  | .tool_use _ _ _ :: _ => none

/-- One iteration of the per-block loop body of `_execute_tool_loop`
(lines 218-233 and 261-275): execute the tool call, converting a raised
exception into the literal "Error executing tool: " text, and wrap the
outcome as a tool result carrying the block id; text blocks produce
nothing. -/
def runToolBlock (tm : ToolManagerModel) : ContentBlock → Option ToolResult
  | .tool_use id name input =>
      let tool_result :=
        match tm.execute_tool name input with
        | .ok s => s
        | .exn m => "Error executing tool: " ++ m
      some ⟨id, tool_result⟩
  | .text _ => none

/-- The tool results collected over one response content, in block order. -/
def runTools (tm : ToolManagerModel) (blocks : List ContentBlock) : List ToolResult :=
  blocks.filterMap (runToolBlock tm)

/-- The `(name, input)` signatures of the `execute_tool` invocations a
response content gives rise to, in order. -/
def toolSigs (blocks : List ContentBlock) : List (String × List (String × String)) :=
  blocks.filterMap fun b =>
    match b with
    | .tool_use _ n i => some (n, i)
    | .text _ => none

/-- The conversation growth of one tool round (identical at lines 214-237
and 257-278): append the assistant response content, then, when any tool
results were collected, append them all as a single new user message. -/
def appendRound (tm : ToolManagerModel) (messages : List Message)
    (content : List ContentBlock) : List Message :=
  let msgs := messages ++ [⟨"assistant", .blocks content⟩]
  let tool_results := runTools tm content
  if tool_results.isEmpty then msgs else msgs ++ [⟨"user", .results tool_results⟩]

/-- `AIGenerator._execute_tool_loop` (lines 183-290), with the model-call
boundary abstracted to `model` and the run summarised as a `RunResult`
(requests made inside the loop, tool executions, returned value, raised
`KeyError` flag).  `callIdx` is the ordinal of the next model call of the
run; `roundsLeft` is `MAX_TOOL_ROUNDS - tool_use_round`, the remaining
while-loop iterations.  Building the next-round request (lines 242-248)
reads `base_params["tools"]`: when `baseParams` has no tools key the
Python dict access raises `KeyError` after the round has executed its
tool calls and appended its messages, which the embedding records as
`key_error := true` with no further model call.  The `roundsLeft = 0`
case is the post-loop code (lines 253-290): when the model still
requests tools, the overflowing round is executed and one final call is
made whose request is built without reading the tools key. -/
def execute_tool_loop (tm : ToolManagerModel) (model : Nat → ModelResponse)
    (callIdx : Nat) (roundsLeft : Nat) (messages : List Message)
    (baseParams : ApiParams) (current : ModelResponse) : RunResult :=
  match roundsLeft with
  | 0 =>
    if current.stop_reason == "tool_use" then
      let msgs := appendRound tm messages current.content
      let finalParams : ApiParams := ⟨msgs, baseParams.system, none⟩
      let resp := model callIdx
      ⟨[finalParams], toolSigs current.content, firstText resp.content, false⟩
    else
      ⟨[], [], firstText current.content, false⟩
  | n + 1 =>
    if current.stop_reason == "tool_use" then
      let msgs := appendRound tm messages current.content
      match baseParams.tools with
      | none =>
          ⟨[], toolSigs current.content, none, true⟩
      | some ts =>
          let nextParams : ApiParams := ⟨msgs, baseParams.system, some ts⟩
          let resp := model callIdx
          let rest := execute_tool_loop tm model (callIdx + 1) n msgs baseParams resp
          ⟨nextParams :: rest.requests, toolSigs current.content ++ rest.execs,
           rest.ret, rest.key_error⟩
    else
      ⟨[], [], firstText current.content, false⟩

/-- The system string of the request (lines 84-88): the conversation
history is appended to the system prompt only when it is truthy, i.e.
present and non-empty. -/
def buildSystem : Option String → String
  | some h =>
      if h.isEmpty then SYSTEM_PROMPT
      else SYSTEM_PROMPT ++ "\n\nPrevious conversation:\n" ++ h
  | none => SYSTEM_PROMPT

/-- The tools key of the first request (lines 98-100): present only when
the `tools` argument is truthy, i.e. present and a non-empty list. -/
def normTools : Option (List String) → Option (List String)
  | some ts => if ts.isEmpty then none else some ts
  | none => none

/-- `AIGenerator.generate_response` (lines 66-110): build the system
content and the one-user-message request, make the first model call, and
either enter the tool loop (stop reason "tool_use" and a tool manager
supplied) or return `response.content[0].text`. -/
def generate_response (query : String) (conversation_history : Option String)
    (tools : Option (List String)) (tool_manager : Option ToolManagerModel)
    (model : Nat → ModelResponse) : RunResult :=
  let api_params : ApiParams :=
    ⟨[⟨"user", .str query⟩], buildSystem conversation_history, normTools tools⟩
  let response := model 0
  if response.stop_reason == "tool_use" then
    match tool_manager with
    | some tm =>
        let rest := execute_tool_loop tm model 1 MAX_TOOL_ROUNDS
          api_params.messages api_params response
        ⟨api_params :: rest.requests, rest.execs, rest.ret, rest.key_error⟩
    | none => ⟨[api_params], [], firstText response.content, false⟩
  else
    ⟨[api_params], [], firstText response.content, false⟩

/-- Claim C3: when the first model response has a terminal stop reason,
exactly one model call is made, no tool is executed, and the returned
value is the text of the first content block, verbatim. -/
theorem C3_terminal_first_response (model : Nat → ModelResponse)
    (q : String) (hist : Option String) (tools : Option (List String))
    (tmgr : Option ToolManagerModel)
    (h : (model 0).stop_reason ≠ "tool_use") :
    (generate_response q hist tools tmgr model).requests.length = 1 ∧
    (generate_response q hist tools tmgr model).execs = [] ∧
    (generate_response q hist tools tmgr model).ret = firstText (model 0).content ∧
    ∀ s rest, (model 0).content = ContentBlock.text s :: rest →
      (generate_response q hist tools tmgr model).ret = some s := by
  unfold generate_response
  simp [h]
  intro s rest hc
  simp [hc, firstText]

/-- Witness for C3 at a concrete terminal response. -/
theorem C3_terminal_first_response_witness :
    (generate_response "What is 2+2?" none none none
      (fun _ => ⟨"end_turn", [ContentBlock.text "4"]⟩)).ret = some "4" := by
  have h := C3_terminal_first_response
    (fun _ => ⟨"end_turn", [ContentBlock.text "4"]⟩)
    "What is 2+2?" none none none (by decide)
  exact h.2.2.2 "4" [] rfl

/-- The tool result a single tool-use block maps to (the body of the
per-block loop, as a total function on blocks). -/
def toolResultOf (tm : ToolManagerModel) : ContentBlock → ToolResult
  | .tool_use id name input =>
      ⟨id, match tm.execute_tool name input with
           | .ok s => s
           | .exn m => "Error executing tool: " ++ m⟩
  | .text _ => ⟨"", ""⟩

lemma runTools_eq_map (tm : ToolManagerModel) (blocks : List ContentBlock) :
    runTools tm blocks = (toolUses blocks).map (toolResultOf tm) := by
  induction blocks with
  | nil => rfl
  | cons b bs ih =>
      cases b with
      | text s => simpa [runTools, toolUses, runToolBlock, isToolUse, List.filterMap_cons,
          List.filter_cons] using ih
      | tool_use id name input =>
          simp [runTools, toolUses, runToolBlock, isToolUse, List.filterMap_cons,
            List.filter_cons, toolResultOf] at ih ⊢
          exact ih

lemma toolResultOf_id (tm : ToolManagerModel) (b : ContentBlock) :
    (toolResultOf tm b).tool_use_id = blockId b := by
  cases b <;> rfl

lemma runTools_length (tm : ToolManagerModel) (blocks : List ContentBlock) :
    (runTools tm blocks).length = (toolUses blocks).length := by
  rw [runTools_eq_map]; exact List.length_map _ _

lemma runTools_ids (tm : ToolManagerModel) (blocks : List ContentBlock) :
    (runTools tm blocks).map ToolResult.tool_use_id = (toolUses blocks).map blockId := by
  rw [runTools_eq_map, List.map_map]
  exact List.map_congr_left fun b _ => toolResultOf_id tm b

/-- Claim C7: in a round whose response contains tool-call requests,
exactly one tool result is produced per request, carrying the request id,
in request order, and all of them are appended to the conversation as one
single new user turn following the assistant turn. -/
theorem C7_round_result_discipline (tm : ToolManagerModel)
    (msgs : List Message) (content : List ContentBlock)
    (h : toolUses content ≠ []) :
    (runTools tm content).length = (toolUses content).length ∧
    (runTools tm content).map ToolResult.tool_use_id = (toolUses content).map blockId ∧
    appendRound tm msgs content =
      msgs ++ [⟨"assistant", .blocks content⟩, ⟨"user", .results (runTools tm content)⟩] := by
  refine ⟨runTools_length tm content, runTools_ids tm content, ?_⟩
  have hne : ¬(runTools tm content).isEmpty = true := by
    rw [List.isEmpty_iff]
    intro he
    have hlen := runTools_length tm content
    rw [he] at hlen
    exact h (List.length_eq_zero.mp hlen.symm)
  simp [appendRound, hne]

/-- Witness for C7 at a round with two tool calls. -/
theorem C7_round_result_discipline_witness :
    (runTools ⟨fun n _ => .ok ("ran " ++ n)⟩
        [ContentBlock.tool_use "id1" "search_course_content" [("query", "a")],
         ContentBlock.tool_use "id2" "get_course_outline" []]).map ToolResult.tool_use_id
      = ["id1", "id2"] := by
  have h := C7_round_result_discipline ⟨fun n _ => .ok ("ran " ++ n)⟩ []
    [ContentBlock.tool_use "id1" "search_course_content" [("query", "a")],
     ContentBlock.tool_use "id2" "get_course_outline" []] (by decide)
  rw [h.2.1]
  rfl

/-- Claim C4: a tool call that raises is converted, inside the round, into
the tool result "Error executing tool: " followed by the exception text;
the round still produces one result per request (so the remaining calls
of the round are executed and nothing propagates out of the loop). -/
theorem C4_tool_exception_contained (tm : ToolManagerModel)
    (blocks : List ContentBlock) (j : Nat) (hj : j < (toolUses blocks).length)
    (id name : String) (input : List (String × String)) (msg : String)
    (hblock : (toolUses blocks).get ⟨j, hj⟩ = ContentBlock.tool_use id name input)
    (hexn : tm.execute_tool name input = .exn msg) :
    (runTools tm blocks).length = (toolUses blocks).length ∧
    (runTools tm blocks)[j]? = some ⟨id, "Error executing tool: " ++ msg⟩ := by
  refine ⟨runTools_length tm blocks, ?_⟩
  rw [List.get_eq_getElem] at hblock
  rw [runTools_eq_map, List.getElem?_map, List.getElem?_eq_getElem hj, hblock]
  simp [toolResultOf, hexn]

/-- Witness for C4: the first of two tool calls raises; both produce
results and the failing one carries the error text. -/
theorem C4_tool_exception_contained_witness :
    (runTools ⟨fun n _ => if n == "bad" then .exn "boom" else .ok "fine"⟩
        [ContentBlock.tool_use "id1" "bad" [], ContentBlock.tool_use "id2" "good" []]).length = 2 ∧
    (runTools ⟨fun n _ => if n == "bad" then .exn "boom" else .ok "fine"⟩
        [ContentBlock.tool_use "id1" "bad" [], ContentBlock.tool_use "id2" "good" []])[0]?
      = some ⟨"id1", "Error executing tool: boom"⟩ := by
  have h := C4_tool_exception_contained
    ⟨fun n _ => if n == "bad" then .exn "boom" else .ok "fine"⟩
    [ContentBlock.tool_use "id1" "bad" [], ContentBlock.tool_use "id2" "good" []]
    0 (by decide) "id1" "bad" [] "boom" (by decide) (by decide)
  exact ⟨h.1, h.2⟩

/-- Claim C9: when the first response requests tools but no tool manager
was supplied, no tool runs, no further model call is made, and the
returned value is the text attribute of the first content block, which is
undefined (`none`) when that block is a tool-use block. -/
theorem C9_tool_use_without_manager (model : Nat → ModelResponse)
    (q : String) (hist : Option String) (tools : Option (List String))
    (h : (model 0).stop_reason = "tool_use") :
    (generate_response q hist tools none model).requests.length = 1 ∧
    (generate_response q hist tools none model).execs = [] ∧
    (generate_response q hist tools none model).ret = firstText (model 0).content ∧
    ∀ id name input rest,
      (model 0).content = ContentBlock.tool_use id name input :: rest →
      (generate_response q hist tools none model).ret = none := by
  unfold generate_response
  simp [h]
  intro id name input rest hc
  simp [hc, firstText]

/-- Witness for C9 at a concrete tool-use-first response. -/
theorem C9_tool_use_without_manager_witness :
    (generate_response "q" none (some ["search_course_content"]) none
      (fun _ => ⟨"tool_use", [ContentBlock.tool_use "id1" "search_course_content" []]⟩)).ret
      = none := by
  have h := C9_tool_use_without_manager
    (fun _ => ⟨"tool_use", [ContentBlock.tool_use "id1" "search_course_content" []]⟩)
    "q" none (some ["search_course_content"]) rfl
  exact h.2.2.2 "id1" "search_course_content" [] [] rfl

/-- The conversation messages at the start of round i of a run: the
initial messages grown by one `appendRound` per completed round. -/
def roundsMessages (tm : ToolManagerModel) (model : Nat → ModelResponse)
    (init : List Message) : Nat → List Message
  | 0 => init
  | i + 1 => appendRound tm (roundsMessages tm model init i) (model i).content

/-- The tool-execution trace accumulated over the first k rounds of a run. -/
def expectedExecs (model : Nat → ModelResponse) :
    Nat → List (String × List (String × String))
  | 0 => []
  | i + 1 => expectedExecs model i ++ toolSigs (model i).content

/-- Claim C1: in a run with tool definitions supplied (the tools key
present in the base request), when the model responds with stop reason
"tool_use" in every round including the one past the budget, the run
executes the overflowing round's tool calls, issues exactly one more
model call whose request has no tools key, makes MAX_TOOL_ROUNDS + 2
model calls in total, and raises no KeyError. -/
theorem C1_overflow_forced_final (model : Nat → ModelResponse) (tm : ToolManagerModel)
    (q : String) (hist : Option String) (tools : Option (List String))
    (ts : List String) (htools : normTools tools = some ts)
    (hreq : ∀ i, i < MAX_TOOL_ROUNDS + 1 → (model i).stop_reason = "tool_use") :
    (generate_response q hist tools (some tm) model).requests =
      ((List.range (MAX_TOOL_ROUNDS + 1)).map fun i =>
        (⟨roundsMessages tm model [⟨"user", .str q⟩] i,
          buildSystem hist, some ts⟩ : ApiParams))
      ++ [⟨roundsMessages tm model [⟨"user", .str q⟩] (MAX_TOOL_ROUNDS + 1),
           buildSystem hist, none⟩] ∧
    (generate_response q hist tools (some tm) model).requests.length = MAX_TOOL_ROUNDS + 2 ∧
    (generate_response q hist tools (some tm) model).execs
      = expectedExecs model (MAX_TOOL_ROUNDS + 1) ∧
    (generate_response q hist tools (some tm) model).ret
      = firstText (model (MAX_TOOL_ROUNDS + 1)).content ∧
    (generate_response q hist tools (some tm) model).key_error = false := by
  have h0 := hreq 0 (by decide)
  have h1 := hreq 1 (by decide)
  have h2 := hreq 2 (by decide)
  simp [generate_response, MAX_TOOL_ROUNDS, execute_tool_loop, h0, h1, h2, htools,
    roundsMessages, expectedExecs, List.range_succ]

/-- Witness for C1: a model that requests a tool on every call yields a
four-call run (MAX_TOOL_ROUNDS + 2). -/
theorem C1_overflow_forced_final_witness :
    (generate_response "q" none (some ["search_course_content"])
      (some ⟨fun _ _ => .ok "r"⟩)
      (fun _ => ⟨"tool_use",
        [ContentBlock.tool_use "i" "search_course_content" []]⟩)).requests.length
      = MAX_TOOL_ROUNDS + 2 := by
  exact (C1_overflow_forced_final
    (fun _ => ⟨"tool_use", [ContentBlock.tool_use "i" "search_course_content" []]⟩)
    ⟨fun _ _ => .ok "r"⟩ "q" none (some ["search_course_content"])
    ["search_course_content"] rfl
    (fun i _ => rfl)).2.1

/-- Claim C2: in a run with tool definitions supplied, when the model
requests tools in exactly k consecutive responses (1 ≤ k ≤
MAX_TOOL_ROUNDS) and then stops, the run makes exactly k + 1 model calls
and raises no KeyError, each round's tool calls are executed in order
between the model calls, and every round's requests receive matching
results in request order. -/
theorem C2_k_rounds_then_terminal (model : Nat → ModelResponse) (tm : ToolManagerModel)
    (q : String) (hist : Option String) (tools : Option (List String))
    (ts : List String) (htools : normTools tools = some ts)
    (k : Nat) (hk1 : 1 ≤ k) (hk2 : k ≤ MAX_TOOL_ROUNDS)
    (hreq : ∀ i, i < k → (model i).stop_reason = "tool_use")
    (hterm : (model k).stop_reason ≠ "tool_use") :
    (generate_response q hist tools (some tm) model).requests =
      (List.range (k + 1)).map (fun i =>
        (⟨roundsMessages tm model [⟨"user", .str q⟩] i,
          buildSystem hist, some ts⟩ : ApiParams)) ∧
    (generate_response q hist tools (some tm) model).requests.length = k + 1 ∧
    (generate_response q hist tools (some tm) model).execs = expectedExecs model k ∧
    (generate_response q hist tools (some tm) model).ret = firstText (model k).content ∧
    (generate_response q hist tools (some tm) model).key_error = false ∧
    ∀ i, i < k →
      (runTools tm (model i).content).length = (toolUses (model i).content).length ∧
      (runTools tm (model i).content).map ToolResult.tool_use_id
        = (toolUses (model i).content).map blockId := by
  have hmatch : ∀ i, i < k →
      (runTools tm (model i).content).length = (toolUses (model i).content).length ∧
      (runTools tm (model i).content).map ToolResult.tool_use_id
        = (toolUses (model i).content).map blockId :=
    fun i _ => ⟨runTools_length _ _, runTools_ids _ _⟩
  have hk2b : k ≤ 2 := hk2
  interval_cases k
  · have h0 := hreq 0 (by decide)
    refine ⟨?_, ?_, ?_, ?_, ?_, hmatch⟩ <;>
      simp [generate_response, MAX_TOOL_ROUNDS, execute_tool_loop, h0, hterm, htools,
        roundsMessages, expectedExecs, List.range_succ]
  · have h0 := hreq 0 (by decide)
    have h1 := hreq 1 (by decide)
    refine ⟨?_, ?_, ?_, ?_, ?_, hmatch⟩ <;>
      simp [generate_response, MAX_TOOL_ROUNDS, execute_tool_loop, h0, h1, hterm, htools,
        roundsMessages, expectedExecs, List.range_succ]

/-- Witness for C2 at k = 1: one tool round then a terminal response gives
a two-call run returning the final text. -/
theorem C2_k_rounds_then_terminal_witness :
    (generate_response "q" none (some ["search_course_content"])
      (some ⟨fun _ _ => .ok "r"⟩)
      (fun n => if n == 0
        then ⟨"tool_use", [ContentBlock.tool_use "i" "search_course_content" []]⟩
        else ⟨"end_turn", [ContentBlock.text "done"]⟩)).requests.length = 2 := by
  exact (C2_k_rounds_then_terminal
    (fun n => if n == 0
      then ⟨"tool_use", [ContentBlock.tool_use "i" "search_course_content" []]⟩
      else ⟨"end_turn", [ContentBlock.text "done"]⟩)
    ⟨fun _ _ => .ok "r"⟩ "q" none (some ["search_course_content"])
    ["search_course_content"] rfl 1
    (by decide) (by decide)
    (by intro i hi; interval_cases i; rfl)
    (by decide)).2.1

/-- The outcome of one attempted `self.client.messages.create(**api_params)`
call: a successful response or a raised exception of one of the classes
`_make_api_call_with_retry` distinguishes (lines 133-177). -/
inductive ApiAttempt where
  | success (r : ModelResponse)
  | rate_limit (msg : String)
  | connection_error (msg : String)
  | timeout_error (msg : String)
  | auth_error (msg : String)
  | bad_request (msg : String)
  | other_error (msg : String)
deriving Repr, DecidableEq

/-- The exception classes retried with backoff (`RateLimitError`,
`APIConnectionError`, `APITimeoutError`). -/
def retryable : ApiAttempt → Bool
  | .rate_limit _ => true
  | .connection_error _ => true
  | .timeout_error _ => true
  | _ => false

/-- The exception classes raised immediately: `AuthenticationError`,
`BadRequestError` (lines 169-172) and any other exception (lines 174-177). -/
def non_retryable_error : ApiAttempt → Bool
  | .auth_error _ => true
  | .bad_request _ => true
  | .other_error _ => true
  | _ => false

/-- How `_make_api_call_with_retry` finishes: a returned response, a raised
exception, or the implicit `None` return reachable only with a zero retry
budget. -/
inductive RetryOutcome where
  | ok (r : ModelResponse)
  | raised (e : ApiAttempt)
  | none_returned
deriving Repr, DecidableEq

/-- Observable trace of one `_make_api_call_with_retry` run: number of
attempts made, the sleeps performed in order (seconds), and the outcome. -/
structure RetryTrace where
  attempts : Nat
  delays : List ℚ
  outcome : RetryOutcome
deriving Repr, DecidableEq

/-- The `for attempt in range(self.max_retries)` loop of
`_make_api_call_with_retry` (lines 125-181).  `outcomes i` is what the
i-th attempt does; `idx` is the current attempt index and `remaining` the
iterations left.  A retryable exception on a non-final attempt sleeps
`retry_delay * 2 ** attempt` and continues; on the final attempt, and for
every non-retryable exception, the exception is re-raised at once. -/
def retryAux (outcomes : Nat → ApiAttempt) (retry_delay : ℚ) (idx : Nat) :
    Nat → RetryTrace
  | 0 => ⟨0, [], .none_returned⟩
  | remaining + 1 =>
    match outcomes idx with
    | .success r => ⟨1, [], .ok r⟩
    | e =>
      if retryable e then
        if remaining = 0 then ⟨1, [], .raised e⟩
        else
          let rest := retryAux outcomes retry_delay (idx + 1) remaining
          ⟨rest.attempts + 1, (retry_delay * 2 ^ idx) :: rest.delays, rest.outcome⟩
      else ⟨1, [], .raised e⟩

/-- `AIGenerator._make_api_call_with_retry` with the configuration of
`__init__` (lines 62-64): `max_retries = 3`, `retry_delay = 1.0`. -/
def make_api_call_with_retry (outcomes : Nat → ApiAttempt) : RetryTrace :=
  retryAux outcomes 1 0 3

lemma retryAux_retryable_step (outcomes : Nat → ApiAttempt) (d : ℚ) (idx n : Nat)
    (h : retryable (outcomes idx) = true) :
    retryAux outcomes d idx (n + 1) =
      if n = 0 then ⟨1, [], .raised (outcomes idx)⟩
      else ⟨(retryAux outcomes d (idx + 1) n).attempts + 1,
            (d * 2 ^ idx) :: (retryAux outcomes d (idx + 1) n).delays,
            (retryAux outcomes d (idx + 1) n).outcome⟩ := by
  cases heq : outcomes idx <;> rw [heq] at h <;> simp [retryable] at h <;>
    simp [retryAux, heq, retryable]

lemma retryAux_nonretryable_step (outcomes : Nat → ApiAttempt) (d : ℚ) (idx n : Nat)
    (h : non_retryable_error (outcomes idx) = true) :
    retryAux outcomes d idx (n + 1) = ⟨1, [], .raised (outcomes idx)⟩ := by
  cases heq : outcomes idx <;> rw [heq] at h <;> simp [non_retryable_error] at h <;>
    simp [retryAux, heq, retryable]

/-- Claim C5: when every attempt fails with a retryable error, exactly
max_retries = 3 attempts are made, the sleeps before attempts 1 and 2 are
1s and 2s (retry_delay * 2^(k-1) before attempt k), and the last observed
error is re-raised unchanged. -/
theorem C5_retryable_exhaustion (outcomes : Nat → ApiAttempt)
    (h0 : retryable (outcomes 0) = true)
    (h1 : retryable (outcomes 1) = true)
    (h2 : retryable (outcomes 2) = true) :
    (make_api_call_with_retry outcomes).attempts = 3 ∧
    (make_api_call_with_retry outcomes).delays = [1, 2] ∧
    (make_api_call_with_retry outcomes).outcome = .raised (outcomes 2) := by
  unfold make_api_call_with_retry
  rw [retryAux_retryable_step outcomes 1 0 2 h0]
  rw [retryAux_retryable_step outcomes 1 1 1 h1]
  rw [retryAux_retryable_step outcomes 1 2 0 h2]
  norm_num

/-- Witness for C5: three consecutive rate limits raise the third one
after sleeping 1s and 2s. -/
theorem C5_retryable_exhaustion_witness :
    (make_api_call_with_retry (fun i => .rate_limit (toString i))).delays = [1, 2] ∧
    (make_api_call_with_retry (fun i => .rate_limit (toString i))).outcome
      = .raised (.rate_limit "2") := by
  have h := C5_retryable_exhaustion (fun i => .rate_limit (toString i)) rfl rfl rfl
  exact ⟨h.2.1, h.2.2⟩

/-- Claim C6: an authentication, malformed-request, or unclassified error
is raised on its first occurrence: the run stops at attempt j with no
further attempt and no delay beyond those of the earlier retryable
failures. -/
theorem C6_nonretryable_immediate (outcomes : Nat → ApiAttempt)
    (j : Nat) (hj : j < 3)
    (hbefore : ∀ i, i < j → retryable (outcomes i) = true)
    (hfail : non_retryable_error (outcomes j) = true) :
    make_api_call_with_retry outcomes =
      ⟨j + 1, (List.range j).map (fun i => (1 : ℚ) * 2 ^ i), .raised (outcomes j)⟩ := by
  unfold make_api_call_with_retry
  interval_cases j
  · rw [retryAux_nonretryable_step outcomes 1 0 2 hfail]
    norm_num
  · rw [retryAux_retryable_step outcomes 1 0 2 (hbefore 0 (by decide))]
    rw [retryAux_nonretryable_step outcomes 1 1 1 hfail]
    norm_num [List.range_succ]
  · rw [retryAux_retryable_step outcomes 1 0 2 (hbefore 0 (by decide))]
    rw [retryAux_retryable_step outcomes 1 1 1 (hbefore 1 (by decide))]
    rw [retryAux_nonretryable_step outcomes 1 2 0 hfail]
    norm_num [List.range_succ]

/-- Witness for C6: an authentication failure on the very first attempt is
raised at once with no delay. -/
theorem C6_nonretryable_immediate_witness :
    make_api_call_with_retry (fun _ => .auth_error "invalid key")
      = ⟨1, [], .raised (.auth_error "invalid key")⟩ := by
  have h := C6_nonretryable_immediate (fun _ => .auth_error "invalid key")
    0 (by decide) (by intro i hi; omega) rfl
  simpa using h

/-- Modelled from the spec: the tool registry dispatch
(`ToolManager.execute_tool` of backend/search_tools.py, a repository file
not present among the sources; only its tests are).  Per the spec, the
registry is a name-keyed mapping of capabilities and dispatching an
unregistered name returns the literal sentinel string
Tool (quote)(name)(quote) not found, never raising. -/
def ToolManager.execute_tool
    (registry : List (String × (List (String × String) → String)))
    (name : String) (kwargs : List (String × String)) : String :=
  match registry.find? (fun p => p.1 == name) with
  | some p => p.2 kwargs
  | none =>
      "Tool " ++ String.singleton (Char.ofNat 39) ++ name
        ++ String.singleton (Char.ofNat 39) ++ " not found"

/-- Claim C8: dispatching a tool name that is not registered returns the
literal not-found sentinel, a string containing "not found", for any
keyword arguments, and never raises (the dispatch is a total function). -/
theorem C8_unregistered_tool_dispatch
    (registry : List (String × (List (String × String) → String)))
    (name : String) (kwargs : List (String × String))
    (h : registry.find? (fun p => p.1 == name) = none) :
    ToolManager.execute_tool registry name kwargs
      = "Tool " ++ String.singleton (Char.ofNat 39) ++ name
        ++ String.singleton (Char.ofNat 39) ++ " not found" ∧
    ∃ a b : String, ToolManager.execute_tool registry name kwargs
      = a ++ "not found" ++ b := by
  have he : ToolManager.execute_tool registry name kwargs
      = "Tool " ++ String.singleton (Char.ofNat 39) ++ name
        ++ String.singleton (Char.ofNat 39) ++ " not found" := by
    unfold ToolManager.execute_tool
    rw [h]
  refine ⟨he, "Tool " ++ String.singleton (Char.ofNat 39) ++ name
    ++ String.singleton (Char.ofNat 39) ++ " ", "", ?_⟩
  rw [he]
  have hsplit : (" not found" : String) = " " ++ "not found" ++ "" := rfl
  rw [hsplit]
  simp [String.append_assoc]

/-- Witness for C8 at the unregistered name the test suite uses. -/
theorem C8_unregistered_tool_dispatch_witness :
    ToolManager.execute_tool [] "nonexistent_tool" [("query", "test")]
      = "Tool " ++ String.singleton (Char.ofNat 39) ++ "nonexistent_tool"
        ++ String.singleton (Char.ofNat 39) ++ " not found" := by
  exact (C8_unregistered_tool_dispatch [] "nonexistent_tool" [("query", "test")] rfl).1

/-- Counterexample to C10 as stated: a conversation history that is
supplied but empty is not concatenated into the system prompt (Python
truthiness: the empty string tests false), so the system string of the
sole request is the bare prompt, not the prompt followed by the
"Previous conversation:" suffix. -/
theorem C10_counterexample_empty_history :
    (generate_response "hi" (some "") none none
      (fun _ => ⟨"end_turn", [ContentBlock.text "ok"]⟩)).requests.map ApiParams.system
      = [SYSTEM_PROMPT] ∧
    SYSTEM_PROMPT ≠ SYSTEM_PROMPT ++ "\n\nPrevious conversation:\n" ++ "" := by
  constructor
  · rfl
  · intro hcontra
    have hl := congrArg String.length hcontra
    simp only [String.length_append] at hl
    have hpos : (0 : Nat) < "\n\nPrevious conversation:\n".length := by decide
    omega

/-- Claim C10 as amended: a supplied non-empty conversation history is
concatenated into the system string after "Previous conversation:" (an
empty history is treated like an absent one), and the history never
enters the messages list: the first request always carries exactly one
user message whose content is the query. -/
theorem C10_history_in_system_only (q : String) (hist : Option String)
    (tools : Option (List String)) (tmgr : Option ToolManagerModel)
    (model : Nat → ModelResponse) :
    (generate_response q hist tools tmgr model).requests[0]?.map ApiParams.messages
      = some [⟨"user", .str q⟩] ∧
    (∀ h2, hist = some h2 → ¬h2.isEmpty →
      (generate_response q hist tools tmgr model).requests[0]?.map ApiParams.system
        = some (SYSTEM_PROMPT ++ "\n\nPrevious conversation:\n" ++ h2)) ∧
    (hist = some "" →
      (generate_response q hist tools tmgr model).requests[0]?.map ApiParams.system
        = some SYSTEM_PROMPT) := by
  have key : (generate_response q hist tools tmgr model).requests[0]?
      = some ⟨[⟨"user", .str q⟩], buildSystem hist, normTools tools⟩ := by
    cases tmgr <;> unfold generate_response <;>
      by_cases hx : ((model 0).stop_reason == "tool_use") = true <;> simp [hx]
  refine ⟨by rw [key]; rfl, ?_, ?_⟩
  · intro h2 hh hne
    have hne2 : h2.isEmpty = false := by
      revert hne; cases h2.isEmpty <;> simp
    subst hh
    rw [key]
    simp [buildSystem, hne2]
  · intro hh
    subst hh
    rw [key]
    rfl

/-- Witness for the amended C10: a non-empty history lands in the system
string of the first request. -/
theorem C10_history_in_system_only_witness :
    (generate_response "q" (some "earlier chat") none none
      (fun _ => ⟨"end_turn", [ContentBlock.text "ok"]⟩)).requests[0]?.map ApiParams.system
      = some (SYSTEM_PROMPT ++ "\n\nPrevious conversation:\n" ++ "earlier chat") := by
  exact (C10_history_in_system_only "q" (some "earlier chat") none none
    (fun _ => ⟨"end_turn", [ContentBlock.text "ok"]⟩)).2.1 "earlier chat" rfl (by decide)
